import Mathlib

/-!
Shallow embedding of the two Fusion-360 add-in scripts of this repository:
`src/treasure-chest/scripts/fusion/export_all.py` (the export-lister) and
`src/treasure-chest/scripts/fusion/read_parameters.py` (the parameter-reader).

The host object model (active design, flattened occurrence list, bodies,
user parameters, saved flag) is modelled as explicit data passed to the
`run` functions.  Each `run` returns the list of message-box texts the
script displays during one invocation (the scripts display at most one).
Python's host-API exceptions are modelled by two environment fields:
`preUiExc` (an exception raised by `Application.get()` or
`app.userInterface`, i.e. before the local `ui` is assigned) and
`bodyExc` (an exception raised later in the `try` block, carrying the
`traceback.format_exc()` text).  Parameter values are Python floats in the
source; they are modelled as exact rationals, which agrees with the source
on every value the claims mention.  `Char.toLower` models Python's
`str.lower` on the basic-latin range, the only range the repository's
names use.
-/

namespace TreasureChest

/-- Module-level constant `VERSION = "v01"` of `export_all.py`. -/
def VERSION : String := "v01"

/-- Module-level constant `MATERIAL = "pla"` of `export_all.py`. -/
def MATERIAL : String := "pla"

/-- Python `s.lower()`: lowercase each character (basic-latin range). -/
def pyLower (s : String) : String := ⟨s.data.map Char.toLower⟩

/-- Python `s.replace(' ', '-')`: replace every space with a hyphen
(characterwise, since pattern and replacement are single characters). -/
def pyReplaceSpaceHyphen (s : String) : String :=
  ⟨s.data.map (fun c => if c = ' ' then '-' else c)⟩

/-- The name normalization `name.lower().replace(' ', '-')` applied to
component and body names in `export_all.py` (lines 44 and 59). -/
def normalizeName (s : String) : String := pyReplaceSpaceHyphen (pyLower s)

/-- A solid body; the script reads only its `name`. -/
structure Body where
  name : String
deriving DecidableEq

/-- A component; the script reads its `name` and its `bRepBodies`
collection (`count` = list length). -/
structure Component where
  name : String
  bRepBodies : List Body
deriving DecidableEq

/-- An occurrence in the flattened assembly tree; the script reads only
`occ.component`. -/
structure Occurrence where
  component : Component
deriving DecidableEq

/-- A user parameter as read by `read_parameters.py`: `name`, internal
`value` (centimeters), user-entered `expression`, declared `unit`. -/
structure UserParameter where
  name : String
  value : ℚ
  expression : String
  unit : String
deriving DecidableEq

/-- The slice of the host design the two scripts read: the root component,
the host-provided flattened occurrence list `rootComponent.allOccurrences`,
and the `userParameters` collection. -/
structure Design where
  rootComponent : Component
  allOccurrences : List Occurrence
  userParameters : List UserParameter
deriving DecidableEq

/-- One invocation's host environment: whether an exception fires before
the `ui` handle is assigned, an optional exception (with trace text) fired
later in the `try` block, the result of casting `activeProduct` to a
design (`none` models a failed cast), and the active document's `isSaved`
flag. -/
structure HostEnv where
  preUiExc : Bool
  bodyExc : Option String
  design : Option Design
  isSaved : Bool

/-- The filename built at lines 51 and 60 of `export_all.py`:
`f"treasure-chest_{normalized}_{VERSION}_{MATERIAL}.stl"`. -/
def mkFilename (name : String) : String :=
  "treasure-chest_" ++ normalizeName name ++ "_" ++ VERSION ++ "_" ++ MATERIAL ++ ".stl"

/-- The first loop of `export_all.py` (lines 42-55): for each occurrence,
skip it when its component owns zero bodies, otherwise append the
filename built from the component's normalized name. -/
def exportOccurrences : List Occurrence → List String
  | [] => []
  | occ :: rest =>
    let comp := occ.component
    if comp.bRepBodies.length = 0 then
      exportOccurrences rest
    else
      mkFilename comp.name :: exportOccurrences rest

/-- The second loop of `export_all.py` (lines 58-61): one filename per
body directly owned by the root component. -/
def exportRootBodies : List Body → List String
  | [] => []
  | b :: rest => mkFilename b.name :: exportRootBodies rest

/-- The full `exported` list accumulated by `run` of `export_all.py`:
occurrence-derived filenames followed by root-body-derived filenames. -/
def listExports (d : Design) : List String :=
  exportOccurrences d.allOccurrences ++ exportRootBodies d.rootComponent.bRepBodies

/-- The messages displayed by `run` of `export_all.py` on one invocation.
An exception before `ui` is assigned reaches the bare `except` with
`ui = None`, so nothing is displayed; an exception after that point is
reported as `Failed:` plus the trace.  Otherwise the script checks the
design cast, then the saved flag, then traverses and reports. -/
def export_all_run (env : HostEnv) : List String :=
  if env.preUiExc then []
  else
    match env.bodyExc with
    | some t => ["Failed:\n" ++ t]
    | none =>
      match env.design with
      | none => ["No active design found."]
      | some d =>
        if !env.isSaved then ["Please save the document first."]
        else
          let exported := listExports d
          if exported.length ≠ 0 then
            ["Would export " ++ toString exported.length ++ " files:\n" ++
              String.intercalate "\n" exported]
          else
            ["No bodies found to export."]

/-- The unit-conversion policy of `read_parameters.py` (lines 37-41):
`display_val = value * 10` when `unit == 'mm'`, else `value`. -/
def displayValue (value : ℚ) (unit : String) : ℚ :=
  if unit = "mm" then value * 10 else value

/-- Python's `f'{v:.2f}'` on an exact rational: the value rounded to
hundredths and printed with exactly two fractional digits.  (Python
rounds ties on the underlying double to even; no value in this
development is a tie.) -/
def format2 (q : ℚ) : String :=
  let n : ℤ := Rat.floor (q * 100 + 1 / 2)
  let m := n.natAbs
  (if n < 0 then "-" else "") ++ toString (m / 100) ++ "." ++
    (if m % 100 < 10 then "0" else "") ++ toString (m % 100)

/-- One report line of `read_parameters.py` (line 43):
`f'{name}: {display_val:.2f} {unit} (expr: {expr})'`. -/
def paramLine (p : UserParameter) : String :=
  p.name ++ ": " ++ format2 (displayValue p.value p.unit) ++ " " ++ p.unit ++
    " (expr: " ++ p.expression ++ ")"

/-- The fixed two-line header of the parameter report (line 31):
`['User Parameters:', '-' * 40]`. -/
def paramHeader : List String := ["User Parameters:", ⟨List.replicate 40 '-'⟩]

/-- The messages displayed by `run` of `read_parameters.py` on one
invocation, under the same exception model as `export_all_run`. -/
def read_parameters_run (env : HostEnv) : List String :=
  if env.preUiExc then []
  else
    match env.bodyExc with
    | some t => ["Failed:\n" ++ t]
    | none =>
      match env.design with
      | none => ["No active design found."]
      | some d =>
        if d.userParameters.length = 0 then
          ["No user parameters defined.\n\nAdd parameters via:\nModify > Change Parameters > + (User Parameters)"]
        else
          [String.intercalate "\n" (paramHeader ++ d.userParameters.map paramLine)]

/-- The spec's worked scenario: components `Hull Plate` (one body) and
`Mast` (no bodies) as occurrences, body `Keel` directly on the root. -/
def scenarioDesign : Design where
  rootComponent := { name := "Root", bRepBodies := [{ name := "Keel" }] }
  allOccurrences :=
    [ { component := { name := "Hull Plate", bRepBodies := [{ name := "Plate1" }] } },
      { component := { name := "Mast", bRepBodies := [] } } ]
  userParameters := []

/-- A design exhibiting the lister's lack of deduplication: two
occurrences of the same non-empty component `Lid` and a root body also
named `Lid`. -/
def dupDesign : Design where
  rootComponent := { name := "Root", bRepBodies := [{ name := "Lid" }] }
  allOccurrences :=
    [ { component := { name := "Lid", bRepBodies := [{ name := "LidBody" }] } },
      { component := { name := "Lid", bRepBodies := [{ name := "LidBody" }] } } ]
  userParameters := []

end TreasureChest

namespace TreasureChest

/-! Helper lemmas about `Char.toLower` (basic-latin lowercasing). -/

theorem char_toNat_ofNat_valid {n : Nat} (h : n.isValidChar) : (Char.ofNat n).toNat = n := by
  simp only [Char.ofNat, h, dif_pos, Char.ofNatAux, Char.toNat, UInt32.toNat]
  simp [BitVec.toNat_ofNatLt]

theorem char_toLower_eq_self {c : Char} (h : ¬(65 ≤ c.toNat ∧ c.toNat ≤ 90)) :
    c.toLower = c := by
  unfold Char.toLower
  rw [if_neg]
  omega

theorem char_toNat_toLower (c : Char) :
    c.toLower.toNat = if 65 ≤ c.toNat ∧ c.toNat ≤ 90 then c.toNat + 32 else c.toNat := by
  unfold Char.toLower
  by_cases h : 65 ≤ c.toNat ∧ c.toNat ≤ 90
  · rw [if_pos (by omega), if_pos h]
    exact char_toNat_ofNat_valid (Or.inl (by omega))
  · rw [if_neg (by omega), if_neg h]

theorem char_toLower_idem (c : Char) : c.toLower.toLower = c.toLower := by
  by_cases h : 65 ≤ c.toNat ∧ c.toNat ≤ 90
  · apply char_toLower_eq_self
    rw [char_toNat_toLower, if_pos h]
    omega
  · simp only [char_toLower_eq_self h]

theorem char_eq_of_toNat_eq {a b : Char} (h : a.toNat = b.toNat) : a = b :=
  Char.eq_of_val_eq (UInt32.ext h)

theorem char_toLower_ne_space {c : Char} (h : c ≠ ' ') : c.toLower ≠ ' ' := by
  intro he
  have h2 := char_toNat_toLower c
  rw [he] at h2
  by_cases hb : 65 ≤ c.toNat ∧ c.toNat ≤ 90
  · rw [if_pos hb] at h2
    have h3 : (' ' : Char).toNat = 32 := rfl
    omega
  · rw [if_neg hb] at h2
    exact h (char_eq_of_toNat_eq h2.symm)

/-! Helper lemmas about `normalizeName`. -/

theorem normalizeName_eq_map (s : String) :
    normalizeName s =
      ⟨s.data.map (fun c => if c.toLower = ' ' then '-' else c.toLower)⟩ := by
  simp [normalizeName, pyLower, pyReplaceSpaceHyphen, List.map_map]
  rfl

theorem normChar_idem (c : Char) :
    (fun c => if c.toLower = ' ' then '-' else c.toLower)
      ((fun c => if c.toLower = ' ' then '-' else c.toLower) c) =
    (fun c => if c.toLower = ' ' then '-' else c.toLower) c := by
  by_cases hc : c = ' '
  · subst hc
    rfl
  · simp only []
    rw [if_neg (char_toLower_ne_space hc)]
    rw [char_toLower_idem, if_neg (char_toLower_ne_space hc)]

/-- C6: name normalization (lowercase every letter, replace every space
with a hyphen) is total on all input names — it is a total Lean function —
and idempotent: applying it twice equals applying it once, and a name that
is already all-lowercase (every character fixed by lowercasing) with no
spaces is unchanged. -/
theorem c6_normalizeName_idempotent_total (s : String) :
    normalizeName (normalizeName s) = normalizeName s ∧
    ((∀ c ∈ s.data, c.toLower = c ∧ c ≠ ' ') → normalizeName s = s) := by
  constructor
  · rw [normalizeName_eq_map s, normalizeName_eq_map, List.map_map]
    show String.mk _ = String.mk _
    congr 1
    exact List.map_congr_left (fun c _ => normChar_idem c)
  · intro h
    rw [normalizeName_eq_map s]
    show String.mk _ = String.mk s.data
    congr 1
    apply List.map_congr_left (g := fun c => c) (fun c hc => ?_) |>.trans (List.map_id' s.data)
    have hfix := (h c hc).1
    have hsp := (h c hc).2
    simp only [hfix, if_neg hsp]

/-- Witness for C6 at the concrete names of the repository's scenario. -/
theorem c6_witness :
    normalizeName (normalizeName "Hull Plate") = normalizeName "Hull Plate" ∧
    normalizeName "hull-plate" = "hull-plate" :=
  ⟨(c6_normalizeName_idempotent_total "Hull Plate").1,
   (c6_normalizeName_idempotent_total "hull-plate").2 (by decide)⟩

example : listExports scenarioDesign =
    ["treasure-chest_hull-plate_v01_pla.stl", "treasure-chest_keel_v01_pla.stl"] := by
  decide

example : format2 (displayValue (5 / 2) "mm") = "25.00" := by
  have h : displayValue (5 / 2) "mm" = 25 := by norm_num [displayValue]
  rw [h]
  norm_num [format2, Rat.floor]
  decide

example : format2 (displayValue (5 / 2) "cm") = "2.50" := by
  have h : displayValue (5 / 2) "cm" = 5 / 2 := by norm_num [displayValue]; decide
  rw [h]
  norm_num [format2, Rat.floor]
  decide

/-! Helper lemmas about the export loops. -/

theorem exportOccurrences_eq_filter_map (occs : List Occurrence) :
    exportOccurrences occs =
      (occs.filter (fun o => o.component.bRepBodies.length != 0)).map
        (fun o => mkFilename o.component.name) := by
  induction occs with
  | nil => rfl
  | cons occ rest ih =>
    by_cases h : occ.component.bRepBodies.length = 0 <;>
      simp [exportOccurrences, List.filter_cons, h, ih]

theorem exportRootBodies_eq_map (bs : List Body) :
    exportRootBodies bs = bs.map (fun b => mkFilename b.name) := by
  induction bs with
  | nil => rfl
  | cons b rest ih => simp [exportRootBodies, ih]

theorem listExports_eq (d : Design) :
    listExports d =
      (d.allOccurrences.filter (fun o => o.component.bRepBodies.length != 0)).map
        (fun o => mkFilename o.component.name) ++
      d.rootComponent.bRepBodies.map (fun b => mkFilename b.name) := by
  rw [listExports, exportOccurrences_eq_filter_map, exportRootBodies_eq_map]

theorem exportOccurrences_append (l₁ l₂ : List Occurrence) :
    exportOccurrences (l₁ ++ l₂) = exportOccurrences l₁ ++ exportOccurrences l₂ := by
  simp [exportOccurrences_eq_filter_map, List.filter_append]

theorem exportOccurrences_replicate_empty (c : Component) (h : c.bRepBodies = [])
    (n : Nat) : exportOccurrences (List.replicate n ⟨c⟩) = [] := by
  induction n with
  | zero => rfl
  | succ n ih => simp [List.replicate_succ, exportOccurrences, h, ih]

theorem exportOccurrences_replicate_nonempty (c : Component) (h : c.bRepBodies ≠ [])
    (n : Nat) :
    exportOccurrences (List.replicate n ⟨c⟩) = List.replicate n (mkFilename c.name) := by
  induction n with
  | zero => rfl
  | succ n ih =>
    have hlen : c.bRepBodies.length ≠ 0 := by simpa [List.length_eq_zero] using h
    simp [List.replicate_succ, exportOccurrences, hlen, ih]

/-- C7: the export-lister's output lists filenames derived from the full
flattened occurrence list in host-provided order first, followed by
filenames derived from the bodies directly owned by the root component in
host-provided order. -/
theorem c7_traversal_order (d : Design) :
    listExports d =
      (d.allOccurrences.filter (fun o => o.component.bRepBodies.length != 0)).map
        (fun o => mkFilename o.component.name) ++
      d.rootComponent.bRepBodies.map (fun b => mkFilename b.name) :=
  listExports_eq d

/-- C5: an occurrence whose component owns zero bodies contributes zero
filenames, whatever the number of its occurrences: inserting any number of
occurrences of a zero-body component anywhere in the occurrence list
leaves the generated filename list unchanged. -/
theorem c5_empty_component_contributes_nothing (c : Component)
    (h : c.bRepBodies = []) (n : Nat) (pre post : List Occurrence) :
    exportOccurrences (pre ++ List.replicate n ⟨c⟩ ++ post) =
      exportOccurrences (pre ++ post) := by
  rw [exportOccurrences_append, exportOccurrences_append,
    exportOccurrences_replicate_empty c h n, exportOccurrences_append]
  simp

/-- Witness for C5: three occurrences of the empty `Mast` component,
inserted between the scenario's occurrences, change nothing. -/
theorem c5_witness :
    exportOccurrences
        ([⟨⟨"Hull Plate", [⟨"Plate1"⟩]⟩⟩] ++
          List.replicate 3 ⟨⟨"Mast", []⟩⟩ ++ []) =
      exportOccurrences ([⟨⟨"Hull Plate", [⟨"Plate1"⟩]⟩⟩] ++ []) :=
  c5_empty_component_contributes_nothing ⟨"Mast", []⟩ rfl 3
    [⟨⟨"Hull Plate", [⟨"Plate1"⟩]⟩⟩] []

/-- C9: the export-lister performs no deduplication: each occurrence of
a non-empty component contributes one identical filename per occurrence,
and the `dupDesign` design (a root body whose normalized name equals the
component's) yields a filename list with duplicates. -/
theorem c9_no_deduplication :
    (∀ (c : Component) (n : Nat), c.bRepBodies ≠ [] →
      exportOccurrences (List.replicate n ⟨c⟩) =
        List.replicate n (mkFilename c.name)) ∧
    listExports dupDesign =
      ["treasure-chest_lid_v01_pla.stl", "treasure-chest_lid_v01_pla.stl",
        "treasure-chest_lid_v01_pla.stl"] ∧
    ¬ (listExports dupDesign).Nodup := by
  refine ⟨fun c n h => exportOccurrences_replicate_nonempty c h n, by decide, by decide⟩

/-- Witness for C9: two occurrences of the non-empty `Lid` component give
the same filename twice. -/
theorem c9_witness :
    exportOccurrences (List.replicate 2 ⟨⟨"Lid", [⟨"LidBody"⟩]⟩⟩) =
      List.replicate 2 (mkFilename "Lid") :=
  c9_no_deduplication.1 ⟨"Lid", [⟨"LidBody"⟩]⟩ 2 (by decide)

/-- C1: for every design with at least one body (directly on the root or
inside some non-empty occurrence's component), the successful run reports
a count equal to the number of generated filenames, every filename matches
the template `treasure-chest_{normalized-name}_v01_pla.stl` exactly, and
there is one filename per exportable unit (one per non-empty occurrence
plus one per root body). -/
theorem c1_count_matches_filenames (d : Design)
    (h : d.rootComponent.bRepBodies ≠ [] ∨
      ∃ o ∈ d.allOccurrences, o.component.bRepBodies ≠ []) :
    export_all_run
        { preUiExc := false, bodyExc := none, design := some d, isSaved := true } =
      ["Would export " ++ toString (listExports d).length ++ " files:\n" ++
        String.intercalate "\n" (listExports d)] ∧
    (∀ f ∈ listExports d,
      ∃ name, f = "treasure-chest_" ++ normalizeName name ++ "_" ++ VERSION ++
        "_" ++ MATERIAL ++ ".stl") ∧
    (listExports d).length =
      (d.allOccurrences.filter
        (fun o => o.component.bRepBodies.length != 0)).length +
        d.rootComponent.bRepBodies.length := by
  have hlen : (listExports d).length =
      (d.allOccurrences.filter
        (fun o => o.component.bRepBodies.length != 0)).length +
        d.rootComponent.bRepBodies.length := by
    rw [listExports_eq]
    simp
  have hne : (listExports d).length ≠ 0 := by
    rcases h with hroot | ⟨o, ho, hob⟩
    · have h1 : d.rootComponent.bRepBodies.length ≠ 0 := by
        simpa [List.length_eq_zero] using hroot
      omega
    · have hmem : o ∈ d.allOccurrences.filter
          (fun o => o.component.bRepBodies.length != 0) := by
        simp [List.mem_filter, ho, List.length_eq_zero, hob]
      have h1 : (d.allOccurrences.filter
          (fun o => o.component.bRepBodies.length != 0)).length ≠ 0 := by
        intro h0
        rw [List.length_eq_zero] at h0
        rw [h0] at hmem
        exact absurd hmem (List.not_mem_nil o)
      omega
  refine ⟨?_, ?_, hlen⟩
  · simp [export_all_run, hne]
  · intro f hf
    rw [listExports_eq] at hf
    rcases List.mem_append.mp hf with hf | hf
    · rcases List.mem_map.mp hf with ⟨o, _, rfl⟩
      exact ⟨o.component.name, rfl⟩
    · rcases List.mem_map.mp hf with ⟨b, _, rfl⟩
      exact ⟨b.name, rfl⟩

/-- Witness for C1 at the spec's scenario design. -/
theorem c1_witness :
    export_all_run
        { preUiExc := false, bodyExc := none, design := some scenarioDesign,
          isSaved := true } =
      ["Would export " ++ toString (listExports scenarioDesign).length ++
        " files:\n" ++ String.intercalate "\n" (listExports scenarioDesign)] ∧
    (∀ f ∈ listExports scenarioDesign,
      ∃ name, f = "treasure-chest_" ++ normalizeName name ++ "_" ++ VERSION ++
        "_" ++ MATERIAL ++ ".stl") ∧
    (listExports scenarioDesign).length =
      (scenarioDesign.allOccurrences.filter
        (fun o => o.component.bRepBodies.length != 0)).length +
        scenarioDesign.rootComponent.bRepBodies.length :=
  c1_count_matches_filenames scenarioDesign (Or.inl (by decide))

/-- C2: on the spec's scenario design (`Hull Plate` with one body, `Mast`
empty, root body `Keel`), the run reports exactly the two expected
filenames in that order with a count of 2, `Mast` excluded. -/
theorem c2_scenario_exact_output :
    export_all_run
        { preUiExc := false, bodyExc := none, design := some scenarioDesign,
          isSaved := true } =
      ["Would export 2 files:\ntreasure-chest_hull-plate_v01_pla.stl\ntreasure-chest_keel_v01_pla.stl"] ∧
    listExports scenarioDesign =
      ["treasure-chest_hull-plate_v01_pla.stl",
        "treasure-chest_keel_v01_pla.stl"] := by
  constructor
  · simp [export_all_run]
    decide
  · decide

/-- C3: with an active design but an unsaved document, the export-lister
displays exactly the unsaved-document message; the outcome does not depend
on the design's contents, so no traversal output of any kind is
produced. -/
theorem c3_unsaved_document_aborts (d : Design) :
    export_all_run
        { preUiExc := false, bodyExc := none, design := some d, isSaved := false } =
      ["Please save the document first."] ∧
    (∀ d' : Design,
      export_all_run
          { preUiExc := false, bodyExc := none, design := some d,
            isSaved := false } =
        export_all_run
          { preUiExc := false, bodyExc := none, design := some d',
            isSaved := false }) := by
  constructor
  · simp [export_all_run]
  · intro d'
    simp [export_all_run]

/-- C4: the declared unit string "mm" scales the displayed value by 10 and
every other unit string leaves it unchanged; internal value 2.5 renders as
`25.00` under "mm" and as `2.50` under "cm", inside the exact report
line. -/
theorem c4_unit_conversion (v : ℚ) (u : String) :
    (u = "mm" → displayValue v u = v * 10) ∧
    (u ≠ "mm" → displayValue v u = v) ∧
    paramLine { name := "width", value := 5 / 2, expression := "25 mm", unit := "mm" } =
      "width: 25.00 mm (expr: 25 mm)" ∧
    paramLine { name := "width", value := 5 / 2, expression := "2.5 cm", unit := "cm" } =
      "width: 2.50 cm (expr: 2.5 cm)" := by
  refine ⟨fun h => by simp [displayValue, h], fun h => by simp [displayValue, h], ?_, ?_⟩
  · have h : displayValue (5 / 2) "mm" = 25 := by norm_num [displayValue]
    simp only [paramLine, h]
    norm_num [format2, Rat.floor]
    decide
  · have h : displayValue (5 / 2) "cm" = 5 / 2 := by norm_num [displayValue]; decide
    simp only [paramLine, h]
    norm_num [format2, Rat.floor]
    decide

/-- Witness for C4 at concrete values and units. -/
theorem c4_witness :
    displayValue (5 / 2) "mm" = 5 / 2 * 10 ∧ displayValue (5 / 2) "cm" = 5 / 2 :=
  ⟨(c4_unit_conversion (5 / 2) "mm").1 rfl,
   ((c4_unit_conversion (5 / 2) "cm").2.1 (by decide))⟩

/-- C8: with an active design whose user-parameter collection is empty,
the parameter-reader displays exactly the guidance message, without the
header or any parameter line, whatever the rest of the design and the
saved flag. -/
theorem c8_empty_parameters_guidance (root : Component) (occs : List Occurrence)
    (saved : Bool) :
    read_parameters_run
        { preUiExc := false, bodyExc := none,
          design := some
            { rootComponent := root, allOccurrences := occs, userParameters := [] },
          isSaved := saved } =
      ["No user parameters defined.\n\nAdd parameters via:\nModify > Change Parameters > + (User Parameters)"] := by
  simp [read_parameters_run]

/-- C10: in both handlers an exception raised before the `ui` handle is
assigned is swallowed (no message at all), while an exception raised after
the handle is acquired is reported as `Failed:` plus the full trace. -/
theorem c10_exception_reporting :
    (∀ env : HostEnv, env.preUiExc = true →
      export_all_run env = [] ∧ read_parameters_run env = []) ∧
    (∀ (env : HostEnv) (t : String), env.preUiExc = false → env.bodyExc = some t →
      export_all_run env = ["Failed:\n" ++ t] ∧
        read_parameters_run env = ["Failed:\n" ++ t]) := by
  constructor
  · intro env h
    constructor <;> simp [export_all_run, read_parameters_run, h]
  · intro env t h ht
    constructor <;> simp [export_all_run, read_parameters_run, h, ht]

/-- Witness for C10 at two concrete environments. -/
theorem c10_witness :
    export_all_run
        { preUiExc := true, bodyExc := none, design := none, isSaved := false } = [] ∧
    read_parameters_run
        { preUiExc := false, bodyExc := some "trace", design := none,
          isSaved := false } = ["Failed:\n" ++ "trace"] :=
  ⟨(c10_exception_reporting.1
      { preUiExc := true, bodyExc := none, design := none, isSaved := false } rfl).1,
   (c10_exception_reporting.2
      { preUiExc := false, bodyExc := some "trace", design := none, isSaved := false }
      "trace" rfl rfl).2⟩

end TreasureChest
